import Mathlib

/-
Verification of the declarative-schema reconciliation engine (column
descriptors, schema differ, DDL synthesizer) of the pt-orm repository.

Embedding boundary: queries that the code sends to the database through
Context._run are requests to an external collaborator (the Catalog Reader
and the Executor of the spec).  The catalog of a table is modelled as an
ordered association list from column name to nullable character length,
exactly the mapping the code builds from the information_schema query in
Context.table_alters.  The existence probe that the rename pass sends for
an original name (src/context.py lines 222-230) builds a query whose
column_name string literal is missing its closing quote (line 226): the
backend rejects every probe as a SQL syntax error and Context._run
raises.  The probe is embedded as renameProbe, which always returns that
error; the branch on a returned row list is kept to mirror lines 230-233
although it is unreachable against the real backend.  Faults inside the
embedded Python code (a missing required argument, a missing attribute)
are likewise modelled as Except errors.

Column discovery: the code enumerates model attributes reflectively
(Context._get_column_names over vars(model)).  Runtime attribute
reflection is not shallowly embeddable; per the spec the core consumes the
declared desired schema as an ordered mapping from column name to column
descriptor, so a Model carries that mapping directly and the reflective
hasattr test of the drop pass is modelled over the mapping keys plus the
fixed visible attributes of the Model base class.
-/

/-- PyVal is the small universe of Python runtime values that the column
wrapper stores: the point of interest is Python truthiness, which the code
uses on values, lengths and defaults. -/
inductive PyVal where
  | none
  | bool (b : Bool)
  | int (n : Int)
  | str (s : String)
  deriving DecidableEq

/-- Python truthiness for PyVal: None, False, 0 and the empty string are
falsy, everything else is truthy. -/
def PyVal.truthy : PyVal → Bool
  | PyVal.none => false
  | PyVal.bool b => b
  | PyVal.int n => n != 0
  | PyVal.str s => s != ""

/-- DataType enumerates the semantic types that appear as keys of
DATA_TYPE_MAPPER in src/mappers.py (bool, datetime, dict, float, int,
list, str, UUID). -/
inductive DataType where
  | bool
  | datetime
  | dict
  | float
  | int
  | list
  | str
  | uuid
  deriving DecidableEq

/-- Embeds DATA_TYPE_MAPPER from src/mappers.py.  Modelled from the spec:
the keyword constants it imports from the db_types module (absent from
src) are, per the spec, the target database column-type keywords; they are
rendered here as their literal names.  The VARCHAR keyword is also what
src/context.py hard-codes in the length-change scripts. -/
def DATA_TYPE_MAPPER : DataType → String
  | DataType.bool => "BOOLEAN"
  | DataType.datetime => "TIMESTAMP"
  | DataType.dict => "JSON"
  | DataType.float => "DECIMAL"
  | DataType.int => "NUMERIC"
  | DataType.list => "ARRAY"
  | DataType.str => "VARCHAR"
  | DataType.uuid => "UUID"

/-- Modelled from the spec: DefaultValue.VARCHAR_LENGTH.value comes from
the defaults module, which is absent from src; the spec only calls it the
configured default length, so the numeral here is a representative
constant and no theorem below depends on its value. -/
def DefaultValue_VARCHAR_LENGTH : Int := 255

/-- Column embeds the Column class of src/column.py: semantic type,
optional VARCHAR length, primary-key flag, optional SQL default (stored
here as an optional string), optional original name for rename tracking,
and the stored runtime value. -/
structure Column where
  data_type : DataType
  length : Option Int
  primary_key : Bool
  db_default : Option String
  original_name : Option String
  value : PyVal
  deriving DecidableEq

/-- Embeds Column.copy (src/column.py lines 32-44): every descriptor field
is passed through unchanged and the stored value becomes
value or self underscore value, i.e. the argument when it is truthy and
the original stored value otherwise. -/
def Column.copy (c : Column) (value : PyVal) : Column :=
  { data_type := c.data_type
    length := c.length
    primary_key := c.primary_key
    db_default := c.db_default
    original_name := c.original_name
    value := if PyVal.truthy value = true then value else c.value }

/-- Embeds the Column.db_data_type property (src/column.py lines 46-60):
the mapped type keyword, parameterized with a length when the semantic
type is str (the declared length when set and positive, the configured
default otherwise), with a truthy db_default appended after a space. -/
def Column.db_data_type (c : Column) : String :=
  let t0 := DATA_TYPE_MAPPER c.data_type
  let t1 :=
    if c.data_type = DataType.str then
      t0 ++ "(" ++ toString (match c.length with
        | some n => if 0 < n then n else DefaultValue_VARCHAR_LENGTH
        | Option.none => DefaultValue_VARCHAR_LENGTH) ++ ")"
    else t0
  match c.db_default with
  | some d => if d != "" then t1 ++ " " ++ d else t1
  | Option.none => t1

/-- Model embeds a Model subclass (src/model.py): optional schema
qualifier, table name, and the declared desired schema as an ordered
mapping from column name to column descriptor (see the header comment on
reflective column discovery). -/
structure Model where
  schema : Option String
  name : String
  columns : List (String × Column)
  deriving DecidableEq

/-- Python membership test for a list of names, mirroring the in operator
on the name collections the code keeps. -/
def nameListHas : List String → String → Bool
  | [], _ => false
  | s :: rest, name => if s = name then true else nameListHas rest name

/-- Embeds the hasattr(self dot model, db_column) test of the drop pass
(src/context.py line 243): an attribute exists when it is a declared
column or one of the visible attributes every Model class carries (schema,
name, generate_tables, and the metaclass property context). -/
def Model.hasattr (model : Model) (attr : String) : Bool :=
  nameListHas (model.columns.map Prod.fst) attr ||
  nameListHas ["schema", "name", "generate_tables", "context"] attr

/-- Embeds Context._get_table_name (src/context.py lines 93-101): when the
schema attribute is truthy the code interpolates the model name into BOTH
segments of the qualified name; otherwise the bare name is returned. -/
def get_table_name (model : Model) : String :=
  match model.schema with
  | some s => if 0 < s.length then model.name ++ "." ++ model.name else model.name
  | Option.none => model.name

/-- Live catalog lookup: first binding of a column name in the catalog
association list, mirroring lookup in the db_columns dict that
Context.table_alters builds from information_schema (name to nullable
character_maximum_length). -/
def dbLookup : List (String × Option Int) → String → Option (Option Int)
  | [], _ => Option.none
  | p :: rest, name => if p.1 = name then some p.2 else dbLookup rest name

/-- Membership of a column name in the live catalog, mirroring the Python
in test on the db_columns dict. -/
def dbContains (catalog : List (String × Option Int)) (name : String) : Bool :=
  (dbLookup catalog name).isSome

/-- PyErr enumerates the Python exceptions the embedded code can raise:
the database syntax error surfaced by psycopg2 for the malformed rename
probe, the missing-argument TypeError of the drop and length-change
assembly, and the missing-attribute AttributeError of create_table. -/
inductive PyErr where
  | programmingError (msg : String)
  | typeError (msg : String)
  | attributeError (msg : String)
  deriving DecidableEq

/-- Message of the database error raised through Context._run when the
rename probe is executed: the query text of src/context.py lines 222-227
opens a quote before the interpolated original_name and never closes it
(line 226), which the database rejects as an unterminated quoted
string. -/
def probeSyntaxMsg : String :=
  "ProgrammingError: unterminated quoted string in the rename probe of context.py line 226"

/-- Message of the TypeError raised by the calls self._get_table_name()
on src/context.py lines 279 and 285, which omit the required model
argument of the classmethod. -/
def missingArgMsg : String :=
  "TypeError: _get_table_name() missing 1 required positional argument: model"

/-- Message of the AttributeError raised on src/context.py line 170, where
create_table reads a type_str attribute that src/column.py never
defines. -/
def typeStrMsg : String :=
  "AttributeError: Column object has no attribute type_str"

/-- Embeds the existence probe that the rename pass sends through
Context._run (src/context.py lines 222-230).  The query text interpolates
original_name after an opening quote whose closing quote is missing (line
226), so the database rejects the request as a syntax error regardless of
catalog content and Context._run raises: the probe never returns a row
list. -/
def renameProbe (_catalog : List (String × Option Int)) (_oname : String) :
    Except PyErr (List String) :=
  Except.error (PyErr.programmingError probeSyntaxMsg)

/-- Embeds the rename guard of src/context.py lines 218-233 for one
desired column: with a non-empty original_name the probe is sent, and a
non-empty row list would mark the column renamed and consume the original
name (lines 230-233; unreachable against the real backend, since the
probe raises first). -/
def renameGuard (catalog : List (String × Option Int)) (nc : String × Column) :
    Except PyErr (Option String) :=
  match nc.2.original_name with
  | some oname =>
    if 0 < oname.length then
      match renameProbe catalog oname with
      | Except.error e => Except.error e
      | Except.ok rows =>
        if rows.length > 0 then Except.ok (some oname) else Except.ok Option.none
    else Except.ok Option.none
  | Option.none => Except.ok Option.none

/-- Embeds one iteration of the loop over desired columns (src/context.py
lines 216-239): the rename guard, then the addition check on the
not-renamed columns absent from the live catalog.  Returns the recorded
rename pair and the recorded addition of this column, if any. -/
def renameAdditionStep (catalog : List (String × Option Int)) (nc : String × Column) :
    Except PyErr (Option (String × String) × Option (String × Column)) :=
  match renameGuard catalog nc with
  | Except.error e => Except.error e
  | Except.ok (some oname) => Except.ok (some (oname, nc.1), Option.none)
  | Except.ok Option.none =>
    if dbContains catalog nc.1 = true then Except.ok (Option.none, Option.none)
    else Except.ok (Option.none, some nc)

/-- Embeds the single pass over desired columns of src/context.py lines
216-239 in declared order; the first raising probe aborts the loop, as in
the source.  Returns the rename pairs (original_name, model_column) and
the added (name, descriptor) pairs; the old_column_names list the code
accumulates is exactly the first components of the rename pairs. -/
def renameAdditionPass (catalog : List (String × Option Int)) :
    List (String × Column) → Except PyErr (List (String × String) × List (String × Column))
  | [] => Except.ok ([], [])
  | nc :: rest =>
    match renameAdditionStep catalog nc with
    | Except.error e => Except.error e
    | Except.ok s =>
      match renameAdditionPass catalog rest with
      | Except.error e => Except.error e
      | Except.ok r => Except.ok (s.1.toList ++ r.1, s.2.toList ++ r.2)

/-- Embeds the drop pass of src/context.py lines 241-245: every live
column that is neither an attribute of the model nor a consumed rename
source is dropped, in catalog order. -/
def dropPass (model : Model) (olds : List String) : List (String × Option Int) → List String
  | [] => []
  | p :: rest =>
    if Model.hasattr model p.1 = false ∧ nameListHas olds p.1 = false
    then p.1 :: dropPass model olds rest
    else dropPass model olds rest

/-- Embeds the original-name fallback of the length-change pass
(src/context.py lines 256-263): when the primary check did not fire, a
change is recorded exactly when the descriptor carries a non-empty
original_name that is live with a recorded length different from the
desired one. -/
def lengthFallback (catalog : List (String × Option Int)) (name : String) (col : Column)
    (n : Int) : Option (String × Int) :=
  match col.original_name with
  | some oname =>
    if 0 < oname.length ∧ dbContains catalog oname = true ∧ dbLookup catalog oname ≠ some (some n)
    then some (name, n) else Option.none
  | Option.none => Option.none

/-- Embeds the per-column body of the length-change pass (src/context.py
lines 248-263): with a truthy desired length, a change is recorded when
the current name is live with a different recorded length, and otherwise
the original-name fallback decides.  A Python None recorded length
compares unequal to any integer, hence the Option comparison. -/
def lengthCheck (catalog : List (String × Option Int)) (name : String) (col : Column) :
    Option (String × Int) :=
  match col.length with
  | some n =>
    if n ≠ 0 then
      if dbContains catalog name = true ∧ dbLookup catalog name ≠ some (some n)
      then some (name, n)
      else lengthFallback catalog name col n
    else Option.none
  | Option.none => Option.none

/-- Embeds the loop of the length-change pass over desired columns in
declared order (src/context.py lines 248-263). -/
def lengthPass (catalog : List (String × Option Int)) : List (String × Column) → List (String × Int)
  | [] => []
  | nc :: rest =>
    match lengthCheck catalog nc.1 nc.2 with
    | some e => e :: lengthPass catalog rest
    | Option.none => lengthPass catalog rest

/-- ChangeSet is the structured decision set of the Differ: rename pairs
(old name, new name), added (name, descriptor) pairs, dropped live names,
and (name, new length) length changes, each in detection order. -/
structure ChangeSet where
  renames : List (String × String)
  additions : List (String × Column)
  drops : List String
  length_changes : List (String × Int)
  deriving DecidableEq

/-- The Differ of src/context.py lines 210-263: the three passes combined,
with the consumed rename sources feeding the drop pass.  An error raised
in the rename pass aborts the whole computation, as in the source. -/
def table_alters_diff (model : Model) (catalog : List (String × Option Int)) :
    Except PyErr ChangeSet :=
  match renameAdditionPass catalog model.columns with
  | Except.error e => Except.error e
  | Except.ok ra =>
    Except.ok
      { renames := ra.1
        additions := ra.2
        drops := dropPass model (ra.1.map Prod.fst) catalog
        length_changes := lengthPass catalog model.columns }

/-- Renders one rename clause exactly as the f-string on src/context.py
line 233. -/
def renameScript (p : String × String) : String :=
  "RENAME COLUMN " ++ p.1 ++ " TO " ++ p.2

/-- Renders one addition clause exactly as the f-string on src/context.py
line 238. -/
def additionScript (nc : String × Column) : String :=
  "ADD COLUMN " ++ nc.1 ++ " " ++ nc.2.db_data_type

/-- Renders one drop clause exactly as the f-string on src/context.py
line 245. -/
def dropScript (name : String) : String :=
  "DROP COLUMN " ++ name

/-- Renders one length-change clause exactly as the f-string on
src/context.py lines 254 and 262. -/
def lengthChangeScript (p : String × Int) : String :=
  "ALTER COLUMN " ++ p.1 ++ " TYPE VARCHAR(" ++ toString p.2 ++ ")"

/-- Embeds the assembly block of src/context.py lines 265-290 (the
Synthesizer): one ALTER TABLE statement per rename, then one batched
ALTER TABLE for a non-empty additions list.  A non-empty drops list makes
line 279 call self._get_table_name() without the required model argument
of the classmethod, raising TypeError before anything runs; a non-empty
length-change list hits the identical fault on line 285.  (The append on
line 281 that would push the raw clause list instead of the joined drop
statement is unreachable behind the line 279 fault.) -/
def synthesize (model : Model) (cs : ChangeSet) : Except PyErr (List String) :=
  if cs.drops.length > 0 then Except.error (PyErr.typeError missingArgMsg)
  else if cs.length_changes.length > 0 then Except.error (PyErr.typeError missingArgMsg)
  else Except.ok
    ((cs.renames.map fun r => "ALTER TABLE " ++ get_table_name model ++ " " ++ renameScript r) ++
     (if cs.additions.length > 0
      then ["ALTER TABLE " ++ get_table_name model ++ "\n" ++
            String.intercalate ",\n" (cs.additions.map additionScript)]
      else []))

/-- Context.table_alters end to end: the Differ followed by the
Synthesizer, producing the ordered statement list handed to the Executor
loop, or the first Python exception raised along the way. -/
def table_alters_queries (model : Model) (catalog : List (String × Option Int)) :
    Except PyErr (List String) :=
  match table_alters_diff model catalog with
  | Except.error e => Except.error e
  | Except.ok cs => synthesize model cs

/-- Embeds the attribute read getattr(self dot model, column).type_str on
src/context.py line 170: src/column.py declares no type_str member, so the
lookup raises AttributeError for every column. -/
def Column.type_str_attr (_c : Column) : Except PyErr String :=
  Except.error (PyErr.attributeError typeStrMsg)

/-- Embeds Context.create_table (src/context.py lines 162-189): render
each column as name plus its type_str attribute, join the primary-key
names, and produce the CREATE TABLE IF NOT EXISTS text with the literal
whitespace of the triple-quoted f-string.  The type_str read faults on the
first column. -/
def create_table_query (model : Model) : Except PyErr String := do
  let parts ← model.columns.mapM fun nc => do
    let ts ← Column.type_str_attr nc.2
    pure (nc.1 ++ " " ++ ts)
  let columns_query_part := String.intercalate ", " parts
  let pk_part := String.intercalate ", "
    (model.columns.filterMap fun nc => if nc.2.primary_key then some nc.1 else Option.none)
  pure ("\n        CREATE TABLE IF NOT EXISTS " ++ get_table_name model ++ " (\n        " ++
    columns_query_part ++ ",\n        PRIMARY KEY (\n        " ++ pk_part ++ "\n        ))\n        ")

/-- Formalises the amended claim C9 in the words of the spec: the string
type keyword parameterized with the declared length when set and positive
and with the configured default length otherwise, with a space and the
db_default appended verbatim exactly when db_default is present and
non-empty. -/
def spec_string_ddl_type (length : Option Int) (dflt : Option String) : String :=
  let n := match length with
    | some k => if 0 < k then k else DefaultValue_VARCHAR_LENGTH
    | Option.none => DefaultValue_VARCHAR_LENGTH
  let base := "VARCHAR(" ++ toString n ++ ")"
  match dflt with
  | some d => if d ≠ "" then base ++ " " ++ d else base
  | Option.none => base

/-- Concrete desired column for the rename scenario: a string column
declared under the name email, previously named email_addr. -/
def colE1 : Column :=
  { data_type := DataType.str
    length := Option.none
    primary_key := false
    db_default := Option.none
    original_name := some "email_addr"
    value := PyVal.none }

/-- Concrete model for the rename scenario of claim C1. -/
def m1 : Model :=
  { schema := Option.none, name := "users", columns := [("email", colE1)] }

/-- Concrete live catalog for the rename scenario of claim C1. -/
def cat1 : List (String × Option Int) := [("email_addr", some 50)]

/-- Concrete converged model for claim C2: two columns, no renames. -/
def m2 : Model :=
  { schema := Option.none
    name := "users"
    columns :=
      [("id", { data_type := DataType.uuid, length := Option.none, primary_key := true,
                db_default := Option.none, original_name := Option.none, value := PyVal.none }),
       ("email", { data_type := DataType.str, length := some 50, primary_key := false,
                   db_default := Option.none, original_name := Option.none, value := PyVal.none })] }

/-- Live catalog equal to the m2 schema (names and recorded lengths). -/
def cat2 : List (String × Option Int) := [("id", Option.none), ("email", some 50)]

/-- Concrete model for claim C3: one rename, one addition and one length
change among the desired columns. -/
def m3 : Model :=
  { schema := Option.none
    name := "users"
    columns :=
      [("email", { data_type := DataType.str, length := Option.none, primary_key := false,
                   db_default := Option.none, original_name := some "email_addr",
                   value := PyVal.none }),
       ("newcol", { data_type := DataType.int, length := Option.none, primary_key := false,
                    db_default := Option.none, original_name := Option.none, value := PyVal.none }),
       ("title", { data_type := DataType.str, length := some 20, primary_key := false,
                   db_default := Option.none, original_name := Option.none, value := PyVal.none })] }

/-- Concrete live catalog for claim C3: the rename source, one obsolete
column to drop, and a column whose recorded length differs. -/
def cat3 : List (String × Option Int) :=
  [("email_addr", some 50), ("obsolete", Option.none), ("title", some 10)]

/-- Concrete change set holding one change of each kind, as in the
premise of claim C3 (the set the m3/cat3 reconciliation would describe). -/
def cs3 : ChangeSet :=
  { renames := [("email_addr", "email")]
    additions :=
      [("newcol", { data_type := DataType.int, length := Option.none, primary_key := false,
                    db_default := Option.none, original_name := Option.none,
                    value := PyVal.none })]
    drops := ["obsolete"]
    length_changes := [("title", 20)] }

/-- Concrete column for claim C4: desired length 50 under the current
name, with a differently sized live column under the original name. -/
def colE4 : Column :=
  { data_type := DataType.str
    length := some 50
    primary_key := false
    db_default := Option.none
    original_name := some "email_addr"
    value := PyVal.none }

/-- Concrete model for claim C4. -/
def m4 : Model :=
  { schema := Option.none, name := "users", columns := [("email", colE4)] }

/-- Concrete live catalog for claim C4: the current name is live with
exactly the desired length, the original name is live with another
length. -/
def cat4 : List (String × Option Int) := [("email", some 50), ("email_addr", some 40)]

/-- Concrete non-string column with a set length, for claim C5. -/
def colAge : Column :=
  { data_type := DataType.int
    length := some 10
    primary_key := false
    db_default := Option.none
    original_name := Option.none
    value := PyVal.none }

/-- Concrete model holding the non-string column of claim C5. -/
def mAge : Model :=
  { schema := Option.none, name := "people", columns := [("age", colAge)] }

/-- The same model with the length left unset, for claim C5. -/
def mAgeNone : Model :=
  { schema := Option.none
    name := "people"
    columns :=
      [("age", { data_type := DataType.int, length := Option.none, primary_key := false,
                 db_default := Option.none, original_name := Option.none,
                 value := PyVal.none })] }

/-- Concrete live catalog for claim C5: the integer column is live with a
NULL recorded character length. -/
def catAge : List (String × Option Int) := [("age", Option.none)]

/-- Concrete model for claim C6: one retained column. -/
def m6 : Model :=
  { schema := Option.none
    name := "t6"
    columns :=
      [("a", { data_type := DataType.int, length := Option.none, primary_key := true,
               db_default := Option.none, original_name := Option.none, value := PyVal.none })] }

/-- Concrete live catalog for claim C6: the retained column plus one
column that must be dropped. -/
def cat6 : List (String × Option Int) := [("a", Option.none), ("b", Option.none)]

/-- Concrete model with a schema qualifier, for claim C7. -/
def m7 : Model := { schema := some "s7", name := "t7", columns := [] }

/-- Concrete column without the primary-key flag, for claim C8. -/
def colC8 : Column :=
  { data_type := DataType.int
    length := Option.none
    primary_key := false
    db_default := Option.none
    original_name := Option.none
    value := PyVal.none }

/-- Concrete model with one column and no primary key, for claim C8. -/
def m8 : Model := { schema := Option.none, name := "t8", columns := [("c1", colC8)] }

/-- The same model with the column flagged as primary key, for claim C8. -/
def m8pk : Model :=
  { schema := Option.none
    name := "t8"
    columns :=
      [("c1", { data_type := DataType.int, length := Option.none, primary_key := true,
                db_default := Option.none, original_name := Option.none,
                value := PyVal.none })] }

/-- Concrete string column whose db_default is present but empty, for
claim C9. -/
def colDef : Column :=
  { data_type := DataType.str
    length := some 5
    primary_key := false
    db_default := some ""
    original_name := Option.none
    value := PyVal.none }

/-- Concrete string column with a truthy db_default, witnessing the
amended claim C9. -/
def colW9 : Column :=
  { data_type := DataType.str
    length := some 7
    primary_key := false
    db_default := some "DEFAULT x"
    original_name := Option.none
    value := PyVal.none }

/-- Concrete column with a stored value, witnessing claim C10. -/
def colW10 : Column :=
  { data_type := DataType.float
    length := Option.none
    primary_key := false
    db_default := Option.none
    original_name := some "older"
    value := PyVal.int 3 }

/-- Membership in a name list makes the Python in test succeed. -/
theorem nameListHas_of_mem (l : List String) (a : String) (h : a ∈ l) :
    nameListHas l a = true := by
  induction l with
  | nil => cases h
  | cons b t ih =>
    unfold nameListHas
    by_cases hb : b = a
    · rw [if_pos hb]
    · rw [if_neg hb]
      rcases List.mem_cons.mp h with h1 | h2
      · exact absurd h1.symm hb
      · exact ih h2

/-- A name among the catalog keys is contained in the catalog. -/
theorem dbContains_of_key (catalog : List (String × Option Int)) (name : String)
    (h : name ∈ catalog.map Prod.fst) : dbContains catalog name = true := by
  induction catalog with
  | nil => simp at h
  | cons p rest ih =>
    by_cases hp : p.1 = name
    · simp [dbContains, dbLookup, hp]
    · rw [List.map_cons] at h
      have h2 : name ∈ rest.map Prod.fst := by
        rcases List.mem_cons.mp h with h1 | h1
        · exact absurd h1.symm hp
        · exact h1
      simpa [dbContains, dbLookup, hp] using ih h2

/-- Looking a column up in the catalog built from the desired schema
itself returns exactly the declared length, provided the declared column
names are distinct. -/
theorem dbLookup_map_length (cols : List (String × Column)) (name : String) (col : Column)
    (hnodup : (cols.map Prod.fst).Nodup) (hmem : (name, col) ∈ cols) :
    dbLookup (cols.map fun nc => (nc.1, nc.2.length)) name = some col.length := by
  induction cols with
  | nil => cases hmem
  | cons nc rest ih =>
    rw [List.map_cons] at hnodup
    have hnd := List.nodup_cons.mp hnodup
    simp only [List.map_cons]
    by_cases h : nc.1 = name
    · rcases List.mem_cons.mp hmem with h1 | h2
      · rw [← h1]
        simp [dbLookup]
      · exact absurd (h ▸ List.mem_map_of_mem Prod.fst h2) hnd.1
    · rcases List.mem_cons.mp hmem with h1 | h2
      · exact absurd (congrArg Prod.fst h1.symm) h
      · simpa [dbLookup, h] using ih hnd.2 h2

/-- When no desired column carries an original name the probe is never
sent, and with every desired column already live the rename and addition
pass completes and records nothing. -/
theorem renameAdditionPass_nil (catalog : List (String × Option Int))
    (cols : List (String × Column))
    (h1 : ∀ nc ∈ cols, (Prod.snd nc).original_name = Option.none)
    (h2 : ∀ nc ∈ cols, dbContains catalog (Prod.fst nc) = true) :
    renameAdditionPass catalog cols = Except.ok ([], []) := by
  induction cols with
  | nil => rfl
  | cons nc rest ih =>
    have hstep : renameAdditionStep catalog nc = Except.ok (Option.none, Option.none) := by
      unfold renameAdditionStep renameGuard
      rw [h1 nc (List.mem_cons_self nc rest)]
      simp [h2 nc (List.mem_cons_self nc rest)]
    have hrec := ih (fun x hx => h1 x (List.mem_cons_of_mem nc hx))
      (fun x hx => h2 x (List.mem_cons_of_mem nc hx))
    simp [renameAdditionPass, hstep, hrec]

/-- When every live column is an attribute of the model, the drop pass
records nothing. -/
theorem dropPass_nil_of_hasattr (model : Model) (olds : List String)
    (catalog : List (String × Option Int))
    (h : ∀ p ∈ catalog, Model.hasattr model p.1 = true) :
    dropPass model olds catalog = [] := by
  induction catalog with
  | nil => rfl
  | cons p rest ih =>
    have hp := h p (List.mem_cons_self p rest)
    have hrec := ih fun q hq => h q (List.mem_cons_of_mem p hq)
    simp [dropPass, hp, hrec]

/-- When no desired column passes its length check, the length pass
records nothing. -/
theorem lengthPass_nil (catalog : List (String × Option Int))
    (cols : List (String × Column))
    (h : ∀ nc ∈ cols, lengthCheck catalog nc.1 nc.2 = Option.none) :
    lengthPass catalog cols = [] := by
  induction cols with
  | nil => rfl
  | cons nc rest ih =>
    have hrec := ih fun x hx => h x (List.mem_cons_of_mem nc hx)
    simp [lengthPass, h nc (List.mem_cons_self nc rest), hrec]

/-- A column with no original name whose recorded live length equals its
declared length passes its length check silently. -/
theorem lengthCheck_none_conv (catalog : List (String × Option Int)) (name : String)
    (col : Column) (horig : col.original_name = Option.none)
    (hlk : dbLookup catalog name = some col.length) :
    lengthCheck catalog name col = Option.none := by
  rcases hl : col.length with _ | n
  · simp [lengthCheck, hl]
  · rw [hl] at hlk
    by_cases h0 : n = 0
    · simp [lengthCheck, hl, h0]
    · have hcond : ¬ (dbContains catalog name = true ∧ dbLookup catalog name ≠ some (some n)) := by
        rintro ⟨-, hne⟩
        exact hne hlk
      simp [lengthCheck, hl, h0, hcond, lengthFallback, horig]

/-- C1: the claim asserts rename detection: with a desired column email
carrying original_name email_addr and live column email_addr, the change
set should contain the rename (email_addr, email) and neither an addition
for email nor a drop of email_addr.  The probe query the rename pass
sends for the original name (src/context.py lines 222-227) is missing the
closing quote of its column_name string literal, so the database rejects
it and Context._run raises at line 230 for every column with a non-empty
original_name: rename detection always crashes and no change set is
formed.  Evaluated on the claim scenario. -/
theorem C1_rename_probe_crash :
    colE1.original_name = some "email_addr" ∧
    dbContains cat1 "email_addr" = true ∧
    table_alters_diff m1 cat1 = Except.error (PyErr.programmingError probeSyntaxMsg) ∧
    table_alters_queries m1 cat1 = Except.error (PyErr.programmingError probeSyntaxMsg) := by
  refine ⟨rfl, rfl, rfl, rfl⟩

/-- C2: for every desired schema (with distinct declared column names)
that exactly equals the live snapshot -- the catalog is the declared names
with their declared lengths and no descriptor carries an original name --
the Differ completes (no probe is ever sent) with an empty change set in
all four categories and the Synthesizer emits zero statements. -/
theorem C2_idempotence (model : Model) (catalog : List (String × Option Int))
    (hnodup : (model.columns.map Prod.fst).Nodup)
    (horig : ∀ nc ∈ model.columns, (Prod.snd nc).original_name = Option.none)
    (hcat : catalog = model.columns.map fun nc => (nc.1, nc.2.length)) :
    table_alters_diff model catalog =
      Except.ok { renames := [], additions := [], drops := [], length_changes := [] } ∧
    table_alters_queries model catalog = Except.ok [] := by
  have hkeys : ∀ nc ∈ model.columns, dbContains catalog (Prod.fst nc) = true := by
    intro nc h
    apply dbContains_of_key
    rw [hcat, List.map_map]
    exact List.mem_map.mpr ⟨nc, h, rfl⟩
  have hpass : renameAdditionPass catalog model.columns = Except.ok ([], []) :=
    renameAdditionPass_nil catalog model.columns horig hkeys
  have hdrop : dropPass model [] catalog = [] := by
    apply dropPass_nil_of_hasattr
    intro p hp
    rw [hcat] at hp
    obtain ⟨nc, hnc, hpe⟩ := List.mem_map.mp hp
    unfold Model.hasattr
    have hhas : nameListHas (model.columns.map Prod.fst) p.1 = true := by
      apply nameListHas_of_mem
      rw [← hpe]
      exact List.mem_map_of_mem Prod.fst hnc
    rw [hhas]
    rfl
  have hlen : lengthPass catalog model.columns = [] := by
    apply lengthPass_nil
    intro nc h
    apply lengthCheck_none_conv
    · exact horig nc h
    · rw [hcat]
      exact dbLookup_map_length model.columns nc.1 nc.2 hnodup h
  have hdiff : table_alters_diff model catalog =
      Except.ok { renames := [], additions := [], drops := [], length_changes := [] } := by
    unfold table_alters_diff
    rw [hpass]
    simp only [List.map_nil]
    rw [hdrop, hlen]
  refine ⟨hdiff, ?_⟩
  unfold table_alters_queries
  rw [hdiff]
  unfold synthesize
  simp

/-- C2 witness: a converged two-column schema reconciles to an empty
change set and zero statements. -/
theorem C2_idempotence_witness :
    table_alters_diff m2 cat2 =
      Except.ok { renames := [], additions := [], drops := [], length_changes := [] } ∧
    table_alters_queries m2 cat2 = Except.ok [] :=
  C2_idempotence m2 cat2 (by decide) (by decide) (by decide)

/-- C3: the claim asserts that for every change set with at least one
rename, one addition, one drop and one length change the Synthesizer
orders renames before the additions statement before the drops statement
before the length-changes statement.  The code cannot deliver this,
twice over: a change set containing a rename can never be formed, because
the malformed probe of the rename pass (src/context.py line 226) raises
at line 230 first, as the m3/cat3 run shows; and even handed such a
change set cs3 directly, the assembly calls self._get_table_name()
without the required model argument of the classmethod (src/context.py
line 279) and raises TypeError with no statement list produced, so only
the renames-before-additions fragment of the ordering is ever realized. -/
theorem C3_ordering_crash :
    cs3.renames ≠ [] ∧ cs3.additions ≠ [] ∧ cs3.drops ≠ [] ∧ cs3.length_changes ≠ [] ∧
    synthesize m3 cs3 = Except.error (PyErr.typeError missingArgMsg) ∧
    table_alters_diff m3 cat3 = Except.error (PyErr.programmingError probeSyntaxMsg) := by
  refine ⟨by decide, by decide, by decide, by decide, rfl, rfl⟩

/-- C4 counterexample: colE4 declares length 50 under the current name
email, which is live with recorded length exactly 50, yet a length change
is still recorded: the code retries under the original name email_addr
(live with length 40) whenever the current-name comparison does not fire,
not only when the current name is absent, refuting the claim that no
change is recorded in this situation. -/
theorem C4_counterexample :
    dbLookup cat4 "email" = some (some 50) ∧
    colE4.length = some 50 ∧
    lengthCheck cat4 "email" colE4 = some ("email", 50) ∧
    lengthPass cat4 m4.columns = [("email", 50)] := by
  refine ⟨rfl, rfl, rfl, rfl⟩

/-- C4 amended: the current name is looked up first and records a change
when it is live with a differing length; otherwise -- both when the
current name is absent and when it is live with exactly the desired
length -- the lookup is retried under original_name (lengthFallback),
which can still record a change. -/
theorem C4_length_lookup_amended (catalog : List (String × Option Int)) (name : String)
    (col : Column) (n : Int) (hn : col.length = some n) (h0 : n ≠ 0) :
    (∀ v, dbLookup catalog name = some v → v ≠ some n →
      lengthCheck catalog name col = some (name, n)) ∧
    (dbLookup catalog name = Option.none →
      lengthCheck catalog name col = lengthFallback catalog name col n) ∧
    (dbLookup catalog name = some (some n) →
      lengthCheck catalog name col = lengthFallback catalog name col n) := by
  refine ⟨?_, ?_, ?_⟩
  · intro v hv hne
    have hcond : dbContains catalog name = true ∧ dbLookup catalog name ≠ some (some n) := by
      constructor
      · unfold dbContains
        rw [hv]
        rfl
      · rw [hv]
        intro hc
        exact hne (Option.some.inj hc)
    simp [lengthCheck, hn, h0, hcond]
  · intro hv
    have hcond : ¬ (dbContains catalog name = true ∧ dbLookup catalog name ≠ some (some n)) := by
      rintro ⟨hc, -⟩
      unfold dbContains at hc
      rw [hv] at hc
      cases hc
    simp [lengthCheck, hn, h0, hcond]
  · intro hv
    have hcond : ¬ (dbContains catalog name = true ∧ dbLookup catalog name ≠ some (some n)) := by
      rintro ⟨-, hne⟩
      exact hne hv
    simp [lengthCheck, hn, h0, hcond]

/-- C4 witness: with the current name live at exactly the desired length,
the check reduces to the original-name fallback (and is not silent). -/
theorem C4_length_lookup_amended_witness :
    lengthCheck cat4 "email" colE4 = lengthFallback cat4 "email" colE4 50 :=
  (C4_length_lookup_amended cat4 "email" colE4 50 rfl (by decide)).2.2 rfl

/-- C5 counterexample: colAge is an integer column, yet with its length
set to 10 and a NULL recorded live length the Differ records a VARCHAR
length change for it, and with the length unset it does not: DDL
synthesis output depends on the length of a non-string column,
contradicting the claim. -/
theorem C5_counterexample :
    colAge.data_type = DataType.int ∧
    table_alters_diff mAge catAge =
      Except.ok { renames := [], additions := [], drops := [], length_changes := [("age", 10)] } ∧
    table_alters_diff mAgeNone catAge =
      Except.ok { renames := [], additions := [], drops := [], length_changes := [] } := by
  refine ⟨rfl, rfl, rfl⟩

/-- C5 amended: the resolved DDL type db_data_type does ignore length for
every non-string semantic type, but the length-change pass of the Differ
never inspects the semantic type -- its outcome is invariant under
changing data_type -- so a set length is consulted there even for
non-string columns. -/
theorem C5_length_scope_amended (col : Column) (l : Option Int)
    (h : col.data_type ≠ DataType.str) (catalog : List (String × Option Int))
    (name : String) (t t2 : DataType) :
    Column.db_data_type { col with length := l } = Column.db_data_type col ∧
    lengthCheck catalog name { col with data_type := t } =
      lengthCheck catalog name { col with data_type := t2 } := by
  constructor
  · unfold Column.db_data_type
    simp [h]
  · rfl

/-- C5 witness: instantiated on the integer column of the
counterexample. -/
theorem C5_length_scope_amended_witness :
    Column.db_data_type { colAge with length := some 99 } = Column.db_data_type colAge ∧
    lengthCheck catAge "age" { colAge with data_type := DataType.bool } =
      lengthCheck catAge "age" { colAge with data_type := DataType.datetime } :=
  C5_length_scope_amended colAge (some 99) (by decide) catAge "age"
    DataType.bool DataType.datetime

/-- C6: the claim asserts that a non-empty drops list yields exactly one
ALTER TABLE statement string with all drops as comma-separated DROP
COLUMN clauses.  The code instead raises TypeError on src/context.py line
279 (self._get_table_name() without the required model argument) before
any statement list is produced; the append on line 281 would moreover
push the clause list itself rather than a joined string.  Evaluated on a
change set whose only content is one drop. -/
theorem C6_drop_statement_crash :
    table_alters_diff m6 cat6 =
      Except.ok { renames := [], additions := [], drops := ["b"], length_changes := [] } ∧
    table_alters_queries m6 cat6 = Except.error (PyErr.typeError missingArgMsg) := by
  refine ⟨rfl, rfl⟩

/-- C7: the claim asserts that with a schema set the qualified table name
is schema.tablename.  Context._get_table_name (src/context.py line 100)
interpolates the model name into both segments: for schema s7 and table
name t7 it produces t7.t7, not s7.t7. -/
theorem C7_qualified_name_defect :
    get_table_name m7 = "t7.t7" ∧ get_table_name m7 ≠ "s7.t7" := by
  refine ⟨rfl, by decide⟩

/-- C8: the claim asserts that creating a table whose columns carry no
primary-key flag fails with a configuration error rather than emitting a
CREATE TABLE statement.  The code performs no primary-key validation:
create_table reads the nonexistent type_str attribute of the first column
(src/context.py line 170) and raises AttributeError for every model with
at least one column, whether or not a primary key is declared. -/
theorem C8_create_table_no_pk :
    (m8.columns.all fun nc => !(Prod.snd nc).primary_key) = true ∧
    create_table_query m8 = Except.error (PyErr.attributeError typeStrMsg) ∧
    create_table_query m8pk = Except.error (PyErr.attributeError typeStrMsg) := by
  refine ⟨rfl, rfl, rfl⟩

/-- C9 counterexample: colDef has db_default present (the empty string);
the claim requires a space plus db_default appended verbatim, which would
yield VARCHAR(5) followed by a space, but the code tests Python
truthiness and appends nothing. -/
theorem C9_counterexample :
    colDef.db_default = some "" ∧
    Column.db_data_type colDef = "VARCHAR(5)" ∧
    Column.db_data_type colDef ≠ "VARCHAR(5) " := by
  refine ⟨rfl, rfl, by decide⟩

/-- C9 amended: for every string-typed descriptor the resolved DDL type
is the VARCHAR keyword parameterized with the declared length when set
and positive and with the configured default length otherwise, and a
space plus db_default is appended verbatim exactly when db_default is
present and non-empty (a present but empty default is dropped):
db_data_type agrees with the spec-side formula spec_string_ddl_type. -/
theorem C9_string_type_amended (c : Column) (h : c.data_type = DataType.str) :
    Column.db_data_type c = spec_string_ddl_type c.length c.db_default := by
  cases hd : c.db_default with
  | none => simp [Column.db_data_type, spec_string_ddl_type, h, hd, DATA_TYPE_MAPPER]
  | some d =>
    by_cases hde : d = ""
    · simp [Column.db_data_type, spec_string_ddl_type, h, hd, hde, DATA_TYPE_MAPPER]
    · simp [Column.db_data_type, spec_string_ddl_type, h, hd, hde, DATA_TYPE_MAPPER]

/-- C9 witness: a string column with length 7 and a truthy default
resolves identically under code and spec formula. -/
theorem C9_string_type_amended_witness :
    Column.db_data_type colW9 = spec_string_ddl_type colW9.length colW9.db_default :=
  C9_string_type_amended colW9 rfl

/-- C10: copy preserves data_type, length, primary_key, db_default and
original_name, and whenever the argument value is falsy (None, False, 0,
the empty string) the stored value of the copy is the original stored
value rather than the argument. -/
theorem C10_copy_frame (c : Column) (v : PyVal) :
    (c.copy v).data_type = c.data_type ∧
    (c.copy v).length = c.length ∧
    (c.copy v).primary_key = c.primary_key ∧
    (c.copy v).db_default = c.db_default ∧
    (c.copy v).original_name = c.original_name ∧
    (PyVal.truthy v = false → (c.copy v).value = c.value) := by
  refine ⟨rfl, rfl, rfl, rfl, rfl, fun hv => ?_⟩
  unfold Column.copy
  simp [hv]

/-- C10 witness: copying with the falsy argument 0 keeps the stored value
and the descriptor fields. -/
theorem C10_copy_frame_witness :
    (colW10.copy (PyVal.int 0)).value = colW10.value ∧
    (colW10.copy (PyVal.int 0)).original_name = colW10.original_name :=
  ⟨(C10_copy_frame colW10 (PyVal.int 0)).2.2.2.2.2 rfl,
   (C10_copy_frame colW10 (PyVal.int 0)).2.2.2.2.1⟩
